import Mathlib

/-!
Shallow embedding of the `ai-math-mentor` pipeline core (parser → router →
solver → verifier → HITL decision → explainer), translated from
`aimath/core/orchestrator.py`, `aimath/agents/solver_agent.py`,
`aimath/agents/guardrail_agent.py`, `aimath/agents/verifier_agent.py` and
`aimath/core/types.py`.

Modelling conventions:
* Python floats (confidence values) are modelled as `ℚ`; the constants
  `0.9 / 0.7 / 0.95 / 0.5 / 1e100` are exact decimal literals, and no
  arithmetic is performed on them other than order comparisons.
* LLM calls (`Agent.run`), the vector store, and the Python `json.loads`
  are external collaborators: they appear as function parameters.  A
  `json.loads`-shaped collaborator returns `Except String d` where the
  `String` carries `str(e)` of the raised exception.
* Python `dict.get(k, default)` on optional keys is modelled with
  `Option` fields and `Option.getD`.
* String manipulation (`split`, `strip`, slicing, substring test) is
  re-implemented structurally over `List Char` so that every definition
  evaluates by `decide` in the kernel.
-/

namespace AIMath

/-- Python f-string rendering of a value that may be `None`. -/
def pyShowOpt : Option String → String
  | none => "None"
  | some s => s

/-- Python truthiness of an optional string (`None` and `""` are falsy). -/
def pyTruthy : Option String → Bool
  | none => false
  | some s => !s.isEmpty

/-- Python truthiness of an optional boolean (`dict.get(k)` on a missing key). -/
def truthyB (o : Option Bool) : Bool := o.getD false

/-- Whitespace characters recognised by Python `str.strip` (ASCII subset). -/
def isPySpace (c : Char) : Bool :=
  c = ' ' || c = '\t' || c = '\n' || c = '\r' || c = '\x0b' || c = '\x0c'

/-- Python `str.strip()` over the character list. -/
def pyStrip (s : String) : String :=
  String.mk (((s.toList.dropWhile isPySpace).reverse.dropWhile isPySpace).reverse)

/-- Structural prefix test on character lists. -/
def isPrefixL : List Char → List Char → Bool
  | [], _ => true
  | _ :: _, [] => false
  | a :: as, b :: bs => a = b && isPrefixL as bs

/-- Fuel-driven splitter on character lists (fuel ≥ length of the input makes
it total); mirrors Python `str.split(sep)` for a non-empty `sep`. -/
def splitLAux (sep : List Char) : Nat → List Char → List Char → List (List Char)
  | _, [], acc => [acc.reverse]
  | 0, s, acc => [acc.reverse ++ s]
  | fuel + 1, c :: rest, acc =>
    if isPrefixL sep (c :: rest) then
      acc.reverse :: splitLAux sep fuel ((c :: rest).drop sep.length) []
    else
      splitLAux sep fuel rest (c :: acc)

/-- Python `s.split(sep)` for a non-empty separator. -/
def pySplit (s sep : String) : List String :=
  (splitLAux sep.toList s.toList.length s.toList []).map String.mk

/-- Python substring test `needle in hay` (for non-empty `needle`),
expressed through the splitter used at every call site of the source. -/
def pyIn (needle hay : String) : Bool :=
  decide (2 ≤ (pySplit hay needle).length)

/-- Python slicing `s[:n]` (by code points, as in Python 3). -/
def pySliceTo (n : Nat) (s : String) : String :=
  String.mk (s.toList.take n)

/-- Decimal digit run to a natural number. -/
def digitsToNat (ds : List Char) : Nat :=
  ds.foldl (fun n c => n * 10 + (c.toNat - 48)) 0

/-- Models Python `float(s)` on plain decimal / scientific notation
(optional sign, digits, optional fraction, optional exponent); returns
`none` where `float` raises `ValueError`.  Exotic accepted spellings
(`inf`, `nan`, underscores) are not modelled; no claim exercises them. -/
def pyParseFloat (s : String) : Option ℚ :=
  let cs := s.toList
  let signAndRest : ℚ × List Char :=
    match cs with
    | '+' :: r => (1, r)
    | '-' :: r => (-1, r)
    | r => (1, r)
  let sign := signAndRest.1
  let cs1 := signAndRest.2
  let intPart := cs1.takeWhile Char.isDigit
  let cs2 := cs1.drop intPart.length
  let fracAndRest : List Char × List Char :=
    match cs2 with
    | '.' :: r => (r.takeWhile Char.isDigit, r.drop (r.takeWhile Char.isDigit).length)
    | r => ([], r)
  let fracPart := fracAndRest.1
  let cs3 := fracAndRest.2
  if intPart.isEmpty && fracPart.isEmpty then none
  else
    let mant : ℚ := (digitsToNat (intPart ++ fracPart) : ℚ) / ((10 : ℚ) ^ fracPart.length)
    match cs3 with
    | [] => some (sign * mant)
    | 'e' :: r =>
      let esignAndRest : Bool × List Char :=
        match r with
        | '+' :: r2 => (true, r2)
        | '-' :: r2 => (false, r2)
        | r2 => (true, r2)
      let eds := esignAndRest.2.takeWhile Char.isDigit
      if eds.isEmpty || !(esignAndRest.2.drop eds.length).isEmpty then none
      else if esignAndRest.1 then some (sign * mant * (10 : ℚ) ^ digitsToNat eds)
      else some (sign * mant / (10 : ℚ) ^ digitsToNat eds)
    | 'E' :: r =>
      let esignAndRest : Bool × List Char :=
        match r with
        | '+' :: r2 => (true, r2)
        | '-' :: r2 => (false, r2)
        | r2 => (true, r2)
      let eds := esignAndRest.2.takeWhile Char.isDigit
      if eds.isEmpty || !(esignAndRest.2.drop eds.length).isEmpty then none
      else if esignAndRest.1 then some (sign * mant * (10 : ℚ) ^ digitsToNat eds)
      else some (sign * mant / (10 : ℚ) ^ digitsToNat eds)
    | _ => none

/-- Python regex substitution removing a leading `digits-dot-whitespace`
numbering prefix from a step line. -/
def stripNumbering (s : String) : String :=
  let cs := s.toList
  let ds := cs.takeWhile Char.isDigit
  if !ds.isEmpty && (cs.drop ds.length).head? = some '.' then
    String.mk ((cs.drop (ds.length + 1)).dropWhile isPySpace)
  else s

/-- Stand-in for Python float formatting inside f-strings; only the fact
that some string is produced matters to the pipeline logic. -/
def ratStr (q : ℚ) : String := toString q.num ++ "/" ++ toString q.den

/-- Record produced by the parser stage (`parsed_data` dict); only the keys
the orchestrator reads are modelled. -/
structure ParsedData where
  problem_text : Option String := none
  is_ambiguous : Option Bool := none
  ambiguity_reason : Option String := none
  deriving DecidableEq

/-- Dict decoded from the guardrail evaluator JSON (any key may be
missing, since `json.loads` output is returned unchecked). -/
structure GuardrailDict where
  is_safe : Option Bool := none
  violation_type : Option String := none
  reason : Option String := none
  recommended_action : Option String := none
  deriving DecidableEq

/-- Dict returned by `VerifierAgent.verify`; `is_correct` is required
because the orchestrator indexes it with `verification["is_correct"]`. -/
structure VerificationDict where
  is_correct : Bool
  critique : Option String := none
  adjusted_confidence : Option ℚ := none
  verification_method : Option String := none
  deriving DecidableEq

/-- Dict returned by `SolverAgent.solve`; the orchestrator reads each key
with `.get`, so all fields are optional. -/
structure SolutionDict where
  plan : Option String := none
  steps : Option (List String) := none
  final_answer : Option String := none
  confidence : Option ℚ := none
  context : Option String := none
  tool_used : Option String := none
  error : Option String := none
  deriving DecidableEq

/-- The `solution_data` dict the orchestrator reconstructs for the verifier:
`{"steps": ..., "final_answer": ..., "tool_used": ...}`. -/
structure SolutionData where
  steps : List String
  final_answer : Option String
  tool_used : Option String
  deriving DecidableEq

/-- Result dict of `Calculator.solve_arithmetic` / `Calculator.compute`. -/
structure CalcResult where
  success : Bool
  symbolic : Option String := none
  numerical : Option ℚ := none
  parsed_expression : Option String := none
  error : Option String := none
  deriving DecidableEq

/-- HITL feedback dict accepted by `Orchestrator.resume_with_feedback`;
`some` marks key presence (`"corrected_text" in feedback`). -/
structure Feedback where
  corrected_text : Option String := none
  override_answer : Option String := none
  approve : Option Bool := none
  deriving DecidableEq

/-- Document appended to the vector store by `Orchestrator.learn_from_success`
(metadata constants `type="solved_example"`, `confidence=1.0`,
`source="user_feedback"` are fixed in the source and omitted here). -/
structure LearnedDoc where
  text : String
  doc_id : String
  category : Option String
  deriving DecidableEq

/-- `PipelineState` from `aimath/core/types.py`. -/
structure PipelineState where
  session_id : String
  step : String := "init"
  raw_input : Option String := none
  input_images : List String := []
  input_audio : Option String := none
  parsed_data : ParsedData := {}
  problem_category : Option String := none
  solution_plan : Option String := none
  solution_steps : List String := []
  final_answer : Option String := none
  confidence : ℚ := 0
  tool_used : Option String := none
  rag_context : Option String := none
  verification_passed : Bool := false
  critique : Option String := none
  explanation : Option String := none
  needs_hitl : Bool := false
  hitl_reason : Option String := none
  deriving DecidableEq

/-- Prompt built by `GuardrailAgent.check`. -/
def GuardrailAgent.promptOf (problem plan : String) : String :=
  "Problem: " ++ problem ++ "\n\nProposed Plan:\n" ++ plan

/-- `GuardrailAgent.check`: run the evaluator on the prompt, decode its JSON
(`gDecode` models the fenced-block / brace extraction plus `json.loads`);
on any decoding exception fail closed with `TRIGGER_HITL`. -/
def GuardrailAgent.check (gAgent : String → String)
    (gDecode : String → Except String GuardrailDict)
    (problem plan : String) : GuardrailDict :=
  match gDecode (gAgent (GuardrailAgent.promptOf problem plan)) with
  | .ok d => d
  | .error e =>
    { is_safe := some false
      violation_type := some "Guardrail_Error"
      reason := some ("Guardrail failed to parse confirmation: " ++ e)
      recommended_action := some "TRIGGER_HITL" }

/-- Minimal `json.dumps` of the flat `solution_data` dict (string escaping
beyond quoting is not modelled; the resulting prompt is only ever consumed
by an abstract evaluator). -/
def jsonDumpsSolution (sd : SolutionData) : String :=
  "\x7b\"steps\": [" ++ String.intercalate ", " (sd.steps.map (fun s => "\"" ++ s ++ "\"")) ++
    "], \"final_answer\": " ++
    (match sd.final_answer with | none => "null" | some s => "\"" ++ s ++ "\"") ++
    ", \"tool_used\": " ++
    (match sd.tool_used with | none => "null" | some s => "\"" ++ s ++ "\"") ++ "\x7d"

/-- The strict-audit prompt header prepended when `strict=True`. -/
def VerifierAgent.strictHeader : String :=
  "STRICT AUDIT MODE ENABLED.\n" ++
  "1. CHECK EVERY SINGLE ALGEBRAIC STEP.\n" ++
  "2. FAIL IF ANY DOMAIN RESTRICTION IS MISSED.\n" ++
  "3. FAIL IF PLAN DOES NOT MATCH EXECUTION.\n"

/-- Prompt built by `VerifierAgent.verify`. -/
def VerifierAgent.promptOf (strict : Bool) (problem : String) (sd : SolutionData) : String :=
  let base := "Problem: " ++ problem ++ "\nSolution: " ++ jsonDumpsSolution sd ++ "\nVerify this."
  if strict then VerifierAgent.strictHeader ++ base else base

/-- `VerifierAgent._sanity_check_calculator`: answer present and non-empty;
if the answer parses as a number it must lie in `(-1e100, 1e100)` (the
Python literal `1e100` is modelled as the exact `10 ^ 100`); steps
non-empty.  A non-numeric answer skips the range check. -/
def VerifierAgent.sanity_check_calculator (sd : SolutionData) : Bool :=
  match sd.final_answer with
  | none => false
  | some fa =>
    if fa = "" then false
    else
      match pyParseFloat fa with
      | some q =>
        if !(decide (-(10 : ℚ) ^ 100 < q) && decide (q < (10 : ℚ) ^ 100)) then false
        else if sd.steps.isEmpty then false
        else true
      | none =>
        if sd.steps.isEmpty then false
        else true

/-- The evaluator branch of `VerifierAgent.verify` (everything after the
calculator special case): run the critique evaluator and decode its JSON;
on a decoding exception return the degraded verdict with
`is_correct = false` and `adjusted_confidence = 0.0`. -/
def VerifierAgent.agentPath (vAgent : String → String)
    (vDecode : String → Except String VerificationDict)
    (problem : String) (sd : SolutionData) (strict : Bool) : VerificationDict :=
  match vDecode (vAgent (VerifierAgent.promptOf strict problem sd)) with
  | .ok v => v
  | .error e =>
    { is_correct := false
      critique := some ("JSON parsing failed. Error: " ++ e ++ ". Raw response: " ++
        vAgent (VerifierAgent.promptOf strict problem sd))
      adjusted_confidence := some 0 }

/-- `VerifierAgent.verify`: auto-approve calculator solutions that pass the
sanity check; otherwise defer to the critique evaluator. -/
def VerifierAgent.verify (vAgent : String → String)
    (vDecode : String → Except String VerificationDict)
    (problem : String) (sd : SolutionData) (strict : Bool) : VerificationDict :=
  if sd.tool_used = some "calculator" ∧ VerifierAgent.sanity_check_calculator sd = true then
    { is_correct := true
      critique := some "Correct (verified by SymPy calculator)"
      adjusted_confidence := some 1
      verification_method := some "symbolic" }
  else
    VerifierAgent.agentPath vAgent vDecode problem sd strict

/-- Prompt built for the planner in `SolverAgent.solve`. -/
def SolverAgent.planPrompt (problem : String) : String :=
  "Problem: " ++ problem ++ "\nCreate a strategy plan."

/-- Prompt built for the executor in `SolverAgent.solve` (the typo
`Highlghts` found in the source is kept). -/
def SolverAgent.execPrompt (problem ctx plan : String) : String :=
  "Problem: " ++ problem ++ "\nContext Highlghts: " ++ ctx ++ "\nPlan: " ++ plan ++
    "\nExecute this and return with ---SECTION--- delimiters."

/-- Bounded RAG retrieval in `SolverAgent.solve`: when no context string was
supplied, take the top-1 document from the vector store and truncate it to
1500 characters. -/
def SolverAgent.ragContext (queryF : String → List String)
    (problem context_str : String) : String :=
  if context_str = "" then
    match queryF problem with
    | [] => ""
    | d :: _ => pySliceTo 1500 d
  else context_str

/-- The degraded result built in the `except` branch of `SolverAgent.solve`
(note: the step list is the one-element placeholder, and no `context` key
is present). -/
def SolverAgent.errExcept (plan e raw : String) : SolutionDict :=
  { plan := some plan
    steps := some ["Error parsing solver output"]
    final_answer := some "Error"
    confidence := some 0
    error := some ("Solver Parse Error: " ++ e ++ ". Raw: " ++ raw) }

/-- The delimiter-splitting `try` block of `SolverAgent.solve`: split the
executor output on `---STEPS---` / `---FINAL_ANSWER---` / `---CONFIDENCE---`;
a missing required marker (or an empty extracted step list, or a tuple
unpacking error when a marker occurs more than once) raises, which the
`except` branch converts into `SolverAgent.errExcept`. -/
def SolverAgent.parse_exec (plan ctx content : String) : SolutionDict :=
  if pyIn "---STEPS---" content then
    let parts := (pySplit content "---STEPS---").getD 1 ""
    if pyIn "---FINAL_ANSWER---" parts then
      match pySplit parts "---FINAL_ANSWER---" with
      | [steps_part, remaining] =>
        let raw_steps := ((pySplit steps_part "\n").map pyStrip).filter (fun l => l ≠ "")
        let steps := raw_steps.map stripNumbering
        if pyIn "---CONFIDENCE---" remaining then
          match pySplit remaining "---CONFIDENCE---" with
          | [ans_part, conf_part] =>
            if steps.isEmpty then
              SolverAgent.errExcept plan "Could not extract steps with delimiters" content
            else
              { plan := some plan
                steps := some steps
                final_answer := some (pyStrip ans_part)
                confidence := some ((pyParseFloat (pyStrip conf_part)).getD 1)
                context := some ctx }
          | _ => SolverAgent.errExcept plan "too many values to unpack (expected 2)" content
        else
          if steps.isEmpty then
            SolverAgent.errExcept plan "Could not extract steps with delimiters" content
          else
            { plan := some plan
              steps := some steps
              final_answer := some (pyStrip remaining)
              confidence := some 0
              context := some ctx }
      | _ => SolverAgent.errExcept plan "too many values to unpack (expected 2)" content
    else SolverAgent.errExcept plan "Could not extract steps with delimiters" content
  else SolverAgent.errExcept plan "Could not extract steps with delimiters" content

/-- `SolverAgent._solve_with_tool`: delegate to the calculator; on success
return confidence exactly 1 and provenance `calculator` (the final answer
is `str(numerical or symbolic)`, where a numeric value of `0.0` is falsy in
Python and `pyStr` stands for Python float formatting); on failure return
the zero-confidence error record. -/
def SolverAgent.solve_with_tool (pyStr : ℚ → String)
    (calcF : String → CalcResult) (problem_text : String) : SolutionDict :=
  let result := calcF problem_text
  if result.success then
    { plan := some "Direct computation via SymPy"
      steps := some ["Parsed expression: " ++ (result.parsed_expression.getD "N/A"),
        "Computed exact value: " ++ (result.symbolic.getD "N/A")]
      final_answer := some (match result.numerical with
        | some q => if q = 0 then pyShowOpt result.symbolic else pyStr q
        | none => pyShowOpt result.symbolic)
      confidence := some 1
      context := some "Exact symbolic computation tool used"
      tool_used := some "calculator" }
  else
    { plan := some "Tool computation failed"
      steps := some []
      final_answer := some "Error"
      confidence := some 0
      error := some ("Calculator error: " ++ pyShowOpt result.error)
      tool_used := some "calculator" }

/-- `SolverAgent.solve`: route `ARITHMETIC` to the deterministic tool before
any planning; otherwise retrieve context, plan, gate the plan through the
guardrail (zero-confidence short-circuit on an unsafe verdict), execute,
and robustly parse the delimited executor output. -/
def SolverAgent.solve (pyStr : ℚ → String) (queryF : String → List String)
    (plannerF : String → String) (gAgent : String → String)
    (gDecode : String → Except String GuardrailDict)
    (executorF : String → String) (calcF : String → CalcResult)
    (problem_text : String) (problem_type : Option String)
    (context_str : String) : SolutionDict :=
  if problem_type = some "ARITHMETIC" then
    SolverAgent.solve_with_tool pyStr calcF problem_text
  else
    let ctx := SolverAgent.ragContext queryF problem_text context_str
    let plan := plannerF (SolverAgent.planPrompt problem_text)
    let g := GuardrailAgent.check gAgent gDecode problem_text plan
    if (g.is_safe.getD false) = false then
      { plan := some plan
        steps := some []
        final_answer := some "Guardrail Intercepted"
        confidence := some 0
        error := some ("Guardrail Violation: " ++ pyShowOpt g.violation_type ++ " - " ++
          pyShowOpt g.reason ++ ". Rec: " ++ pyShowOpt g.recommended_action)
        context := some ctx }
    else
      SolverAgent.parse_exec plan ctx (executorF (SolverAgent.execPrompt problem_text ctx plan))

/-- `Orchestrator.run_solver_phase`: run the solver, copy its fields into
the state, reconstruct `solution_data`, verify, then apply the HITL
decision policy (default `needs_hitl = true`; calculator provenance is
cleared on verifier confidence `> 0.5`, model provenance on the
two-signal consensus or the high-solver-confidence override); halt at
`step = "verified"` or explain and complete.  The collaborating solver,
verifier and explainer agents are the function parameters. -/
def Orchestrator.run_solver_phase (solveF : String → Option String → SolutionDict)
    (verifyF : String → SolutionData → VerificationDict)
    (explainF : String → List String → Option String → Option String → String)
    (state : PipelineState) : PipelineState :=
  let problem := state.parsed_data.problem_text.getD ""
  let solution := solveF problem state.problem_category
  let s1 : PipelineState := { state with
    solution_steps := solution.steps.getD []
    final_answer := some (solution.final_answer.getD "")
    confidence := solution.confidence.getD 0
    solution_plan := some (solution.plan.getD "")
    rag_context := some (solution.context.getD "No context retrieved")
    tool_used := solution.tool_used
    step := "solved" }
  let verification := verifyF problem
    { steps := s1.solution_steps, final_answer := s1.final_answer, tool_used := s1.tool_used }
  let s2 : PipelineState := { s1 with
    verification_passed := verification.is_correct
    critique := some (verification.critique.getD "") }
  let solver_conf := s2.confidence
  let verifier_conf := verification.adjusted_confidence.getD 1
  let s3 : PipelineState :=
    if s2.tool_used = some "calculator" then
      if verifier_conf > 0.5 then { s2 with needs_hitl := false }
      else
        { s2 with
          needs_hitl := true
          hitl_reason := some ("Calculator Sanity Check Failed: " ++ s2.critique.getD "") }
    else
      if verification.is_correct = true ∧ solver_conf > 0.9 ∧ verifier_conf > 0.7 then
        { s2 with needs_hitl := false }
      else if verification.is_correct = true ∧ solver_conf > 0.95 then
        { s2 with needs_hitl := false }
      else
        { s2 with
          needs_hitl := true
          hitl_reason := some ("Verification Failed. Solver: " ++ ratStr solver_conf ++
            ", Verifier: " ++ ratStr verifier_conf ++ ", Critique: " ++ s2.critique.getD "") }
  if s3.needs_hitl then { s3 with step := "verified" }
  else
    { s3 with
      explanation := some (explainF problem s3.solution_steps s3.final_answer s3.problem_category)
      step := "complete" }

/-- `Orchestrator.start_pipeline`: build the fresh state (session creation
and memory logging are external), parse (the parser output is the
`parsed` parameter), halt at `step = "parsed"` on ambiguous input, else
route and enter the solver phase. -/
def Orchestrator.start_pipeline (parsed : ParsedData) (routeF : String → String)
    (solveF : String → Option String → SolutionDict)
    (verifyF : String → SolutionData → VerificationDict)
    (explainF : String → List String → Option String → Option String → String)
    (session_id : String) (text image audio : Option String) : PipelineState :=
  let state0 : PipelineState := {
    session_id := session_id
    raw_input := text
    input_images := match image with | some i => [i] | none => []
    input_audio := audio
    parsed_data := parsed }
  if truthyB parsed.is_ambiguous then
    { state0 with
      needs_hitl := true
      hitl_reason := some ("Ambiguous Input: " ++ pyShowOpt parsed.ambiguity_reason)
      step := "parsed" }
  else
    let s2 : PipelineState := { state0 with
      problem_category := some (routeF (parsed.problem_text.getD ""))
      step := "routed" }
    Orchestrator.run_solver_phase solveF verifyF explainF s2

/-- `Orchestrator.learn_from_success`: if the state has a truthy problem
text and final answer, append the solved example to the knowledge store
(returned as the emitted document; `None` models the early return). -/
def Orchestrator.learn_from_success (state : PipelineState) : Option LearnedDoc :=
  if pyTruthy state.parsed_data.problem_text && pyTruthy state.final_answer then
    some
      { text := "Problem: " ++ state.parsed_data.problem_text.getD "" ++
          "\nSolution Plan: " ++ pyShowOpt state.solution_plan ++
          "\nFinal Answer: " ++ pyShowOpt state.final_answer
        doc_id := "learn_" ++ pySliceTo 8 state.session_id
        category := state.problem_category }
  else none

/-- `Orchestrator.resume_with_feedback`: corrected-text resumption clears
ambiguity and re-enters from routing; override-answer resumption installs
the user answer, marks verification passed, explains, completes and
learns; force-approve resumption overrides verification, explains,
completes and learns; any other feedback returns the state unchanged.
The second component is the learning record emitted to the knowledge
store, if any. -/
def Orchestrator.resume_with_feedback (routeF : String → String)
    (solveF : String → Option String → SolutionDict)
    (verifyF : String → SolutionData → VerificationDict)
    (explainF : String → List String → Option String → Option String → String)
    (state : PipelineState) (fb : Feedback) : PipelineState × Option LearnedDoc :=
  match fb.corrected_text with
  | some ct =>
    let s1 : PipelineState := { state with
      parsed_data := { state.parsed_data with problem_text := some ct, is_ambiguous := some false }
      needs_hitl := false }
    let s2 : PipelineState := { s1 with problem_category := some (routeF ct) }
    (Orchestrator.run_solver_phase solveF verifyF explainF s2, none)
  | none =>
    match fb.override_answer with
    | some ans =>
      let s1 : PipelineState := { state with
        final_answer := some ans
        needs_hitl := false
        verification_passed := true
        step := "verified" }
      let s2 : PipelineState := { s1 with
        explanation := some (explainF (s1.parsed_data.problem_text.getD "")
          ["User provided solution"] s1.final_answer s1.problem_category)
        step := "complete" }
      (s2, Orchestrator.learn_from_success s2)
    | none =>
      if fb.approve = some true then
        let s1 : PipelineState := { state with
          needs_hitl := false
          verification_passed := true }
        let s2 : PipelineState := { s1 with
          explanation := some (explainF (s1.parsed_data.problem_text.getD "")
            s1.solution_steps s1.final_answer s1.problem_category)
          step := "complete" }
        (s2, Orchestrator.learn_from_success s2)
      else (state, none)

/-- Fixed example state used by concrete witnesses. -/
def stateA : PipelineState :=
  { session_id := "sess-1"
    parsed_data := { problem_text := some "solve for x" }
    problem_category := some "ALGEBRA"
    step := "routed" }

/-- Fixed explainer collaborator used by concrete witnesses. -/
def explain0 : String → List String → Option String → Option String → String :=
  fun _ _ _ _ => "explained"

/-- Solver output for the C1 boundary case (model provenance, confidence 0.92). -/
def solC1 : SolutionDict :=
  { plan := some "p", steps := some ["step 1"], final_answer := some "42",
    confidence := some 0.92, context := some "ctx" }

/-- Verifier output for the C1 boundary case (correct, adjusted confidence 0.6). -/
def verC1 : VerificationDict :=
  { is_correct := true, critique := some "Correct", adjusted_confidence := some 0.6 }

/-- Solver output for the C2 tool case (calculator provenance). -/
def solC2 : SolutionDict :=
  { plan := some "Direct computation via SymPy", steps := some ["Parsed expression: 2+2"],
    final_answer := some "4", confidence := some 1, tool_used := some "calculator" }

/-- Verifier output for the C2 tool case (low adjusted confidence 0.3). -/
def verC2 : VerificationDict :=
  { is_correct := true, critique := some "Sanity check failed", adjusted_confidence := some 0.3 }

/-- Solver output for the C10 case (model provenance, confidence 0.93). -/
def solC10 : SolutionDict :=
  { plan := some "p", steps := some ["step 1"], final_answer := some "7",
    confidence := some 0.93 }

/-- Verifier output for the C10 case: no `adjusted_confidence` key. -/
def verC10 : VerificationDict :=
  { is_correct := true, critique := some "Correct" }

/-- Fixed numeric renderer used by concrete witnesses. -/
def pyStr0 : ℚ → String := fun _ => "4.0"

/-- Vector-store collaborator that returns no documents. -/
def query0 : String → List String := fun _ => []

/-- Planner collaborator returning a fixed plan. -/
def planner0 : String → String := fun _ => "1. Rearrange the first equation"

/-- Guardrail evaluator returning fixed text. -/
def gAgent0 : String → String := fun _ => "verdict text"

/-- Guardrail decoder that decodes a safe verdict. -/
def gDecodeOk : String → Except String GuardrailDict :=
  fun _ => Except.ok { is_safe := some true, recommended_action := some "EXECUTE" }

/-- Executor collaborator whose response carries no section delimiters. -/
def exec0 : String → String := fun _ => "The answer is 42, no sections provided."

/-- Calculator collaborator that succeeds. -/
def calcT : String → CalcResult :=
  fun _ => { success := true, symbolic := some "4", numerical := some 4,
             parsed_expression := some "2+2" }

/-- Calculator collaborator that fails. -/
def calcF0 : String → CalcResult :=
  fun _ => { success := false, error := some "Could not parse mathematical expression" }

/-- Ambiguous parser output used by the C5 witness. -/
def parsedAmb : ParsedData :=
  { problem_text := some "solve it", is_ambiguous := some true,
    ambiguity_reason := some "two possible equations" }

/-- Trivial router collaborator. -/
def route0 : String → String := fun _ => "GENERAL"

/-- Alternative router collaborator (used to show stage independence). -/
def route1 : String → String := fun _ => "ARITHMETIC"

/-- Trivial solver collaborator. -/
def solveStub : String → Option String → SolutionDict := fun _ _ => { }

/-- Alternative solver collaborator. -/
def solveStub2 : String → Option String → SolutionDict :=
  fun _ _ => { final_answer := some "9", confidence := some 1 }

/-- Trivial verifier collaborator. -/
def verifyStub : String → SolutionData → VerificationDict := fun _ _ => { is_correct := false }

/-- Alternative verifier collaborator. -/
def verifyStub2 : String → SolutionData → VerificationDict :=
  fun _ _ => { is_correct := true, adjusted_confidence := some 1 }

/-- Alternative explainer collaborator. -/
def explain1 : String → List String → Option String → Option String → String :=
  fun _ _ _ _ => "other explanation"

/-- Calculator-provenance solution with an answer of magnitude `1e200`,
outside the verifier sanity range. -/
def sdC6 : SolutionData :=
  { steps := ["Parsed expression: 10**200", "Computed exact value: 10**200"],
    final_answer := some "1e200", tool_used := some "calculator" }

/-- Critique evaluator returning fixed text (C6). -/
def vAgentC6 : String → String := fun _ => "the result is plausible"

/-- Verifier decoder that decodes a verdict marking the solution correct. -/
def vDecodeOkC6 : String → Except String VerificationDict :=
  fun _ => Except.ok { is_correct := true, critique := some "Correct",
                       adjusted_confidence := some 1 }

/-- Verifier decoder that raises (models a `json.loads` failure). -/
def vDecodeErrC6 : String → Except String VerificationDict :=
  fun _ => Except.error "Expecting value"

/-- Guardrail evaluator response whose decoded JSON has `is_safe = false`
together with `recommended_action = "EXECUTE"` (C8). -/
def gAgentC8 : String → String :=
  fun _ => "\x7b\"is_safe\": false, \"recommended_action\": \"EXECUTE\"\x7d"

/-- Guardrail decoder behaving as `json.loads` does on that response. -/
def gDecodeC8 : String → Except String GuardrailDict :=
  fun s =>
    if s = "\x7b\"is_safe\": false, \"recommended_action\": \"EXECUTE\"\x7d" then
      Except.ok { is_safe := some false, recommended_action := some "EXECUTE" }
    else Except.error "Expecting value"

/-- Guardrail decoder that always raises (used to exercise the
fail-closed path). -/
def gDecodeFail : String → Except String GuardrailDict :=
  fun _ => Except.error "No JSON object could be decoded"

/-- Halted state with populated fields, used by the C9 witness. -/
def stateHalted : PipelineState :=
  { session_id := "sess-9"
    step := "verified"
    parsed_data := { problem_text := some "integrate x" }
    problem_category := some "CALCULUS"
    solution_plan := some "use the power rule"
    solution_steps := ["raise the exponent"]
    final_answer := some "x^2/2"
    confidence := 0.5
    needs_hitl := true
    hitl_reason := some "Verification Failed." }

/-- Override-answer feedback used by the C9 witness. -/
def fbOverride : Feedback := { override_answer := some "x^2/2 + C" }

/-- C4: for every evaluator response whose verdict cannot be decoded
(`gDecode` raises), `GuardrailAgent.check` returns the fail-closed verdict:
`is_safe = false`, `recommended_action = "TRIGGER_HITL"`, with the
diagnostic reason; being a total function it never raises out of the call. -/
theorem guardrail_fails_closed (gAgent : String → String)
    (gDecode : String → Except String GuardrailDict) (problem plan e : String)
    (h : gDecode (gAgent (GuardrailAgent.promptOf problem plan)) = Except.error e) :
    (GuardrailAgent.check gAgent gDecode problem plan).is_safe = some false ∧
    (GuardrailAgent.check gAgent gDecode problem plan).recommended_action = some "TRIGGER_HITL" ∧
    (GuardrailAgent.check gAgent gDecode problem plan).reason =
      some ("Guardrail failed to parse confirmation: " ++ e) := by
  simp [GuardrailAgent.check, h]

/-- Closed witness for `guardrail_fails_closed` at a concrete evaluator
response and a decoder that rejects it. -/
theorem guardrail_fails_closed_witness :
    (GuardrailAgent.check (fun _ => "I cannot decide")
      (fun _ => Except.error "Expecting value") "p" "the plan").is_safe = some false ∧
    (GuardrailAgent.check (fun _ => "I cannot decide")
      (fun _ => Except.error "Expecting value") "p" "the plan").recommended_action =
        some "TRIGGER_HITL" ∧
    (GuardrailAgent.check (fun _ => "I cannot decide")
      (fun _ => Except.error "Expecting value") "p" "the plan").reason =
      some ("Guardrail failed to parse confirmation: " ++ "Expecting value") :=
  guardrail_fails_closed (fun _ => "I cannot decide")
    (fun _ => Except.error "Expecting value") "p" "the plan" "Expecting value" rfl

/-- C1: for a model-provenance attempt (`tool_used ≠ "calculator"`), the
orchestrator clears `needs_hitl` after the verify stage iff
(`is_correct` and solver confidence `> 0.9` and verifier adjusted
confidence `> 0.7`) or (`is_correct` and solver confidence `> 0.95`). -/
theorem model_hitl_policy
    (solveF : String → Option String → SolutionDict)
    (verifyF : String → SolutionData → VerificationDict)
    (explainF : String → List String → Option String → Option String → String)
    (state : PipelineState) (sol : SolutionDict) (ver : VerificationDict) (cv : ℚ)
    (hs : solveF (state.parsed_data.problem_text.getD "") state.problem_category = sol)
    (ht : sol.tool_used ≠ some "calculator")
    (hv : verifyF (state.parsed_data.problem_text.getD "")
        { steps := sol.steps.getD [], final_answer := some (sol.final_answer.getD ""),
          tool_used := sol.tool_used } = ver)
    (hcv : ver.adjusted_confidence = some cv) :
    (Orchestrator.run_solver_phase solveF verifyF explainF state).needs_hitl = false ↔
      ((ver.is_correct = true ∧ sol.confidence.getD 0 > 0.9 ∧ cv > 0.7) ∨
        (ver.is_correct = true ∧ sol.confidence.getD 0 > 0.95)) := by
  simp only [Orchestrator.run_solver_phase, hs, hv, hcv, Option.getD_some]
  split_ifs with htool h1 h2 <;> simp_all

/-- Closed witness for `model_hitl_policy` at the documented boundary case
(solver 0.92, verifier 0.6, verification passed): both clearing clauses
fail, so `needs_hitl` stays `true`. -/
theorem model_hitl_policy_witness :
    solC1.tool_used ≠ some "calculator" ∧
    (Orchestrator.run_solver_phase (fun _ _ => solC1) (fun _ _ => verC1) explain0
      stateA).needs_hitl = true := by
  constructor
  · decide
  · have h := model_hitl_policy (fun _ _ => solC1) (fun _ _ => verC1) explain0
      stateA solC1 verC1 0.6 rfl (by decide) rfl rfl
    cases hb : (Orchestrator.run_solver_phase (fun _ _ => solC1) (fun _ _ => verC1)
        explain0 stateA).needs_hitl
    · exact absurd (h.mp hb) (by norm_num [solC1, verC1])
    · rfl

/-- C2: for a calculator-provenance attempt, the orchestrator clears
`needs_hitl` iff the verifier adjusted confidence is `> 0.5`; when the
flag stays set, `hitl_reason` begins with
`"Calculator Sanity Check Failed"`. -/
theorem tool_hitl_policy
    (solveF : String → Option String → SolutionDict)
    (verifyF : String → SolutionData → VerificationDict)
    (explainF : String → List String → Option String → Option String → String)
    (state : PipelineState) (sol : SolutionDict) (ver : VerificationDict) (cv : ℚ)
    (hs : solveF (state.parsed_data.problem_text.getD "") state.problem_category = sol)
    (ht : sol.tool_used = some "calculator")
    (hv : verifyF (state.parsed_data.problem_text.getD "")
        { steps := sol.steps.getD [], final_answer := some (sol.final_answer.getD ""),
          tool_used := sol.tool_used } = ver)
    (hcv : ver.adjusted_confidence = some cv) :
    ((Orchestrator.run_solver_phase solveF verifyF explainF state).needs_hitl = false ↔
      cv > 0.5) ∧
    ((Orchestrator.run_solver_phase solveF verifyF explainF state).needs_hitl = true →
      ∃ t, (Orchestrator.run_solver_phase solveF verifyF explainF state).hitl_reason =
        some ("Calculator Sanity Check Failed" ++ t)) := by
  simp only [Orchestrator.run_solver_phase, hs, hv, hcv, Option.getD_some]
  split_ifs with htool hconf <;> simp_all
  exact ⟨": " ++ ver.critique.getD "", by rfl⟩

/-- Closed witness for `tool_hitl_policy` at adjusted confidence 0.3. -/
theorem tool_hitl_policy_witness :
    ((Orchestrator.run_solver_phase (fun _ _ => solC2) (fun _ _ => verC2) explain0
        stateA).needs_hitl = false ↔ (0.3 : ℚ) > 0.5) ∧
    ((Orchestrator.run_solver_phase (fun _ _ => solC2) (fun _ _ => verC2) explain0
        stateA).needs_hitl = true →
      ∃ t, (Orchestrator.run_solver_phase (fun _ _ => solC2) (fun _ _ => verC2) explain0
        stateA).hitl_reason = some ("Calculator Sanity Check Failed" ++ t)) :=
  tool_hitl_policy (fun _ _ => solC2) (fun _ _ => verC2) explain0 stateA solC2 verC2 0.3
    rfl rfl rfl rfl

/-- C10: when the verification record lacks `adjusted_confidence`, the
orchestrator defaults the verifier confidence to 1.0, so a tool-provenance
attempt is always cleared and a model-provenance attempt with
`verification_passed` and solver confidence `> 0.9` is cleared. -/
theorem missing_verifier_confidence_defaults
    (solveF : String → Option String → SolutionDict)
    (verifyF : String → SolutionData → VerificationDict)
    (explainF : String → List String → Option String → Option String → String)
    (state : PipelineState) (sol : SolutionDict) (ver : VerificationDict)
    (hs : solveF (state.parsed_data.problem_text.getD "") state.problem_category = sol)
    (hv : verifyF (state.parsed_data.problem_text.getD "")
        { steps := sol.steps.getD [], final_answer := some (sol.final_answer.getD ""),
          tool_used := sol.tool_used } = ver)
    (hcv : ver.adjusted_confidence = none) :
    (sol.tool_used = some "calculator" →
      (Orchestrator.run_solver_phase solveF verifyF explainF state).needs_hitl = false) ∧
    (sol.tool_used ≠ some "calculator" → ver.is_correct = true →
      sol.confidence.getD 0 > 0.9 →
      (Orchestrator.run_solver_phase solveF verifyF explainF state).needs_hitl = false) := by
  simp only [Orchestrator.run_solver_phase, hs, hv, hcv, Option.getD_none]
  constructor
  · intro htool
    split_ifs
    any_goals simp_all
    any_goals norm_num at *
  · intro htool hok hconf
    split_ifs
    any_goals simp_all
    any_goals norm_num at *

/-- Closed witness for `missing_verifier_confidence_defaults`: a
model-provenance attempt with confidence 0.93 and a verifier record
without `adjusted_confidence` is cleared. -/
theorem missing_verifier_confidence_defaults_witness :
    solC10.tool_used ≠ some "calculator" ∧ verC10.is_correct = true ∧
    (Orchestrator.run_solver_phase (fun _ _ => solC10) (fun _ _ => verC10) explain0
      stateA).needs_hitl = false :=
  ⟨by decide, rfl,
    (missing_verifier_confidence_defaults (fun _ _ => solC10) (fun _ _ => verC10) explain0
      stateA solC10 verC10 rfl rfl rfl).2 (by decide) rfl (by norm_num [solC10])⟩

/-- C5: when the parse stage reports ambiguous input, the pipeline halts at
`step = "parsed"` with `needs_hitl = true` and a non-empty `hitl_reason`,
and the result does not depend on the router, solver, verifier or
explainer collaborators (none of those stages runs). -/
theorem ambiguous_input_halts (parsed : ParsedData) (routeF routeF2 : String → String)
    (solveF solveF2 : String → Option String → SolutionDict)
    (verifyF verifyF2 : String → SolutionData → VerificationDict)
    (explainF explainF2 : String → List String → Option String → Option String → String)
    (sid : String) (text image audio : Option String)
    (h : truthyB parsed.is_ambiguous = true) :
    (Orchestrator.start_pipeline parsed routeF solveF verifyF explainF
      sid text image audio).step = "parsed" ∧
    (Orchestrator.start_pipeline parsed routeF solveF verifyF explainF
      sid text image audio).needs_hitl = true ∧
    (∃ r, (Orchestrator.start_pipeline parsed routeF solveF verifyF explainF
      sid text image audio).hitl_reason = some r ∧ r ≠ "") ∧
    Orchestrator.start_pipeline parsed routeF solveF verifyF explainF sid text image audio =
      Orchestrator.start_pipeline parsed routeF2 solveF2 verifyF2 explainF2
        sid text image audio := by
  have hne : ("Ambiguous Input: " ++ pyShowOpt parsed.ambiguity_reason) ≠ "" := by
    intro hc
    have hl := congrArg String.length hc
    rw [String.length_append] at hl
    have h17 : ("Ambiguous Input: " : String).length = 17 := rfl
    have h0 : ("" : String).length = 0 := rfl
    rw [h17, h0] at hl
    omega
  refine ⟨?_, ?_, ⟨"Ambiguous Input: " ++ pyShowOpt parsed.ambiguity_reason, ?_, hne⟩, ?_⟩ <;>
    simp [Orchestrator.start_pipeline, h]

/-- Closed witness for `ambiguous_input_halts` on a concrete ambiguous parse. -/
theorem ambiguous_input_halts_witness :
    (Orchestrator.start_pipeline parsedAmb route0 solveStub verifyStub explain0
      "sess-5" (some "solve it") none none).step = "parsed" ∧
    (Orchestrator.start_pipeline parsedAmb route0 solveStub verifyStub explain0
      "sess-5" (some "solve it") none none).needs_hitl = true ∧
    (∃ r, (Orchestrator.start_pipeline parsedAmb route0 solveStub verifyStub explain0
      "sess-5" (some "solve it") none none).hitl_reason = some r ∧ r ≠ "") ∧
    Orchestrator.start_pipeline parsedAmb route0 solveStub verifyStub explain0
      "sess-5" (some "solve it") none none =
      Orchestrator.start_pipeline parsedAmb route1 solveStub2 verifyStub2 explain1
        "sess-5" (some "solve it") none none :=
  ambiguous_input_halts parsedAmb route0 route1 solveStub solveStub2 verifyStub verifyStub2
    explain0 explain1 "sess-5" (some "solve it") none none rfl

/-- C9: override-answer resumption on a halted session completes the
pipeline with `verification_passed = true`, `needs_hitl = false`, the
user-supplied final answer, and emits a learning record whenever the
state has a truthy problem text and the override is non-empty. -/
theorem override_answer_resume (routeF : String → String)
    (solveF : String → Option String → SolutionDict)
    (verifyF : String → SolutionData → VerificationDict)
    (explainF : String → List String → Option String → Option String → String)
    (state : PipelineState) (fb : Feedback) (a : String)
    (h1 : fb.corrected_text = none) (h2 : fb.override_answer = some a) :
    (Orchestrator.resume_with_feedback routeF solveF verifyF explainF state fb).1.step =
      "complete" ∧
    (Orchestrator.resume_with_feedback routeF solveF verifyF explainF state
      fb).1.verification_passed = true ∧
    (Orchestrator.resume_with_feedback routeF solveF verifyF explainF state
      fb).1.needs_hitl = false ∧
    (Orchestrator.resume_with_feedback routeF solveF verifyF explainF state
      fb).1.final_answer = some a ∧
    (pyTruthy state.parsed_data.problem_text = true → a ≠ "" →
      (Orchestrator.resume_with_feedback routeF solveF verifyF explainF state fb).2 ≠
        none) := by
  refine ⟨?_, ?_, ?_, ?_, ?_⟩
  · simp [Orchestrator.resume_with_feedback, h1, h2]
  · simp [Orchestrator.resume_with_feedback, h1, h2]
  · simp [Orchestrator.resume_with_feedback, h1, h2]
  · simp [Orchestrator.resume_with_feedback, h1, h2]
  · intro hp ha
    have hae : a.isEmpty = false := by
      cases hh : a.isEmpty
      · rfl
      · exact absurd ((String.isEmpty_iff a).mp hh) ha
    have ht2 : pyTruthy (some a) = true := by
      simp [pyTruthy, hae]
    simp [Orchestrator.resume_with_feedback, h1, h2, Orchestrator.learn_from_success, hp, ht2]

/-- Closed witness for `override_answer_resume`: the halted C9 state resumed
with an override answer completes and emits a learning record. -/
theorem override_answer_resume_witness :
    (Orchestrator.resume_with_feedback route0 solveStub verifyStub explain0 stateHalted
      fbOverride).1.step = "complete" ∧
    (Orchestrator.resume_with_feedback route0 solveStub verifyStub explain0 stateHalted
      fbOverride).1.verification_passed = true ∧
    (Orchestrator.resume_with_feedback route0 solveStub verifyStub explain0 stateHalted
      fbOverride).1.needs_hitl = false ∧
    (Orchestrator.resume_with_feedback route0 solveStub verifyStub explain0 stateHalted
      fbOverride).1.final_answer = some "x^2/2 + C" ∧
    (pyTruthy stateHalted.parsed_data.problem_text = true → "x^2/2 + C" ≠ "" →
      (Orchestrator.resume_with_feedback route0 solveStub verifyStub explain0 stateHalted
        fbOverride).2 ≠ none) :=
  override_answer_resume route0 solveStub verifyStub explain0 stateHalted fbOverride
    "x^2/2 + C" rfl rfl

/-- C3: an `ARITHMETIC`-routed problem is delegated entirely to the
calculator tool — the result equals `solve_with_tool` and is independent
of the retrieval, planner, guardrail and executor collaborators — with
confidence exactly 1 and provenance `calculator` on tool success, and
confidence 0, `final_answer = "Error"`, empty steps and an error
annotation on tool failure. -/
theorem arithmetic_delegates_to_tool (pyStr : ℚ → String)
    (q1 q2 : String → List String) (p1 p2 : String → String)
    (g1 g2 : String → String) (gd1 gd2 : String → Except String GuardrailDict)
    (e1 e2 : String → String) (calcF : String → CalcResult)
    (pt cs1 cs2 : String) :
    SolverAgent.solve pyStr q1 p1 g1 gd1 e1 calcF pt (some "ARITHMETIC") cs1 =
      SolverAgent.solve_with_tool pyStr calcF pt ∧
    SolverAgent.solve pyStr q1 p1 g1 gd1 e1 calcF pt (some "ARITHMETIC") cs1 =
      SolverAgent.solve pyStr q2 p2 g2 gd2 e2 calcF pt (some "ARITHMETIC") cs2 ∧
    ((calcF pt).success = true →
      (SolverAgent.solve pyStr q1 p1 g1 gd1 e1 calcF pt
        (some "ARITHMETIC") cs1).confidence = some 1 ∧
      (SolverAgent.solve pyStr q1 p1 g1 gd1 e1 calcF pt
        (some "ARITHMETIC") cs1).tool_used = some "calculator") ∧
    ((calcF pt).success = false →
      (SolverAgent.solve pyStr q1 p1 g1 gd1 e1 calcF pt
        (some "ARITHMETIC") cs1).confidence = some 0 ∧
      (SolverAgent.solve pyStr q1 p1 g1 gd1 e1 calcF pt
        (some "ARITHMETIC") cs1).final_answer = some "Error" ∧
      (SolverAgent.solve pyStr q1 p1 g1 gd1 e1 calcF pt
        (some "ARITHMETIC") cs1).steps = some [] ∧
      (SolverAgent.solve pyStr q1 p1 g1 gd1 e1 calcF pt
        (some "ARITHMETIC") cs1).tool_used = some "calculator" ∧
      (SolverAgent.solve pyStr q1 p1 g1 gd1 e1 calcF pt
        (some "ARITHMETIC") cs1).error =
        some ("Calculator error: " ++ pyShowOpt (calcF pt).error)) := by
  refine ⟨rfl, rfl, ?_, ?_⟩
  · intro hsuc
    simp [SolverAgent.solve, SolverAgent.solve_with_tool, hsuc]
  · intro hfail
    simp [SolverAgent.solve, SolverAgent.solve_with_tool, hfail]

/-- Closed witness for `arithmetic_delegates_to_tool` on a successful
calculator run. -/
theorem arithmetic_delegates_to_tool_witness :
    (calcT "what is 2 + 2").success = true ∧
    (SolverAgent.solve pyStr0 query0 planner0 gAgent0 gDecodeOk exec0 calcT "what is 2 + 2"
      (some "ARITHMETIC") "").confidence = some 1 ∧
    (SolverAgent.solve pyStr0 query0 planner0 gAgent0 gDecodeOk exec0 calcT "what is 2 + 2"
      (some "ARITHMETIC") "").tool_used = some "calculator" :=
  ⟨rfl,
    (arithmetic_delegates_to_tool pyStr0 query0 query0 planner0 planner0 gAgent0 gAgent0
      gDecodeOk gDecodeOk exec0 exec0 calcT "what is 2 + 2" "" "").2.2.1 rfl⟩

/-- Helper: `SolverAgent.solve` reaches the delimiter parse of the executor
output whenever the problem is not arithmetic and the guardrail approved
the plan. -/
theorem solve_reaches_parse (pyStr : ℚ → String)
    (queryF : String → List String) (plannerF : String → String)
    (gAgent : String → String) (gDecode : String → Except String GuardrailDict)
    (executorF : String → String) (calcF : String → CalcResult)
    (problem : String) (ptype : Option String) (ctxStr : String)
    (plan ctx content : String)
    (hptype : ptype ≠ some "ARITHMETIC")
    (hctx : SolverAgent.ragContext queryF problem ctxStr = ctx)
    (hplan : plannerF (SolverAgent.planPrompt problem) = plan)
    (hsafe : (GuardrailAgent.check gAgent gDecode problem plan).is_safe = some true)
    (hcontent : executorF (SolverAgent.execPrompt problem ctx plan) = content) :
    SolverAgent.solve pyStr queryF plannerF gAgent gDecode executorF calcF problem ptype
      ctxStr = SolverAgent.parse_exec plan ctx content := by
  simp [SolverAgent.solve, hptype, hctx, hplan, hsafe, hcontent]

/-- C7 (amended): when the executor response lacks the `---STEPS---` marker
or the `---FINAL_ANSWER---` marker, `solve` returns the degraded record
with the one-element placeholder step list `["Error parsing solver output"]`
(not an empty list), `final_answer = "Error"`, `confidence = 0`, and an
error field carrying the diagnostic and the raw response; being total it
never raises. -/
theorem exec_parse_failure_degrades (pyStr : ℚ → String)
    (queryF : String → List String) (plannerF : String → String)
    (gAgent : String → String) (gDecode : String → Except String GuardrailDict)
    (executorF : String → String) (calcF : String → CalcResult)
    (problem : String) (ptype : Option String) (ctxStr : String)
    (plan ctx content : String)
    (hptype : ptype ≠ some "ARITHMETIC")
    (hctx : SolverAgent.ragContext queryF problem ctxStr = ctx)
    (hplan : plannerF (SolverAgent.planPrompt problem) = plan)
    (hsafe : (GuardrailAgent.check gAgent gDecode problem plan).is_safe = some true)
    (hcontent : executorF (SolverAgent.execPrompt problem ctx plan) = content)
    (hmiss : pyIn "---STEPS---" content = false ∨
      pyIn "---FINAL_ANSWER---" ((pySplit content "---STEPS---").getD 1 "") = false) :
    SolverAgent.solve pyStr queryF plannerF gAgent gDecode executorF calcF problem ptype
      ctxStr = SolverAgent.errExcept plan "Could not extract steps with delimiters" content ∧
    (SolverAgent.errExcept plan "Could not extract steps with delimiters" content).steps =
      some ["Error parsing solver output"] ∧
    (SolverAgent.errExcept plan "Could not extract steps with delimiters"
      content).final_answer = some "Error" ∧
    (SolverAgent.errExcept plan "Could not extract steps with delimiters"
      content).confidence = some 0 ∧
    (SolverAgent.errExcept plan "Could not extract steps with delimiters" content).error =
      some ("Solver Parse Error: Could not extract steps with delimiters. Raw: " ++
        content) := by
  have hbody := solve_reaches_parse pyStr queryF plannerF gAgent gDecode executorF calcF
    problem ptype ctxStr plan ctx content hptype hctx hplan hsafe hcontent
  refine ⟨?_, rfl, rfl, rfl, rfl⟩
  rw [hbody]
  rcases hmiss with hm | hm
  · simp [SolverAgent.parse_exec, hm]
  · by_cases hsteps : pyIn "---STEPS---" content = true
    · have hm2 : pyIn "---FINAL_ANSWER---"
          (((pySplit content "---STEPS---")[1]?).getD "") = false := by
        simpa using hm
      simp [SolverAgent.parse_exec, hsteps, hm2]
    · simp [SolverAgent.parse_exec, hsteps]

/-- Closed witness for `exec_parse_failure_degrades` on an executor response
without any section delimiters. -/
theorem exec_parse_failure_degrades_witness :
    SolverAgent.solve pyStr0 query0 planner0 gAgent0 gDecodeOk exec0 calcT "solve x + y"
      (some "ALGEBRA") "some context" =
      SolverAgent.errExcept "1. Rearrange the first equation"
        "Could not extract steps with delimiters"
        "The answer is 42, no sections provided." ∧
    (SolverAgent.errExcept "1. Rearrange the first equation"
      "Could not extract steps with delimiters"
      "The answer is 42, no sections provided.").steps =
        some ["Error parsing solver output"] ∧
    (SolverAgent.errExcept "1. Rearrange the first equation"
      "Could not extract steps with delimiters"
      "The answer is 42, no sections provided.").final_answer = some "Error" ∧
    (SolverAgent.errExcept "1. Rearrange the first equation"
      "Could not extract steps with delimiters"
      "The answer is 42, no sections provided.").confidence = some 0 ∧
    (SolverAgent.errExcept "1. Rearrange the first equation"
      "Could not extract steps with delimiters"
      "The answer is 42, no sections provided.").error =
      some ("Solver Parse Error: Could not extract steps with delimiters. Raw: " ++
        "The answer is 42, no sections provided.") :=
  exec_parse_failure_degrades pyStr0 query0 planner0 gAgent0 gDecodeOk exec0 calcT
    "solve x + y" (some "ALGEBRA") "some context" "1. Rearrange the first equation"
    "some context" "The answer is 42, no sections provided."
    (by decide) rfl rfl rfl rfl (Or.inl (by decide))

/-- Counterexample for C7 as stated: on a delimiter-free executor response
the degraded record has the non-empty placeholder step list
`["Error parsing solver output"]`, not the empty list the claim requires. -/
theorem exec_parse_failure_cex :
    (SolverAgent.solve pyStr0 query0 planner0 gAgent0 gDecodeOk exec0 calcT "solve x + y"
      (some "ALGEBRA") "some context").steps = some ["Error parsing solver output"] ∧
    (SolverAgent.solve pyStr0 query0 planner0 gAgent0 gDecodeOk exec0 calcT "solve x + y"
      (some "ALGEBRA") "some context").steps ≠ some [] := by
  constructor
  · decide
  · decide

/-- Helper: Python `float("1e200")` evaluates to the exact `10 ^ 200`. -/
theorem pyParseFloat_1e200 : pyParseFloat "1e200" = some ((10 : ℚ) ^ 200) := by
  have h1 : pyParseFloat "1e200" =
      some (1 * ((digitsToNat (['1'] ++ []) : ℚ) / (10 : ℚ) ^ ([] : List Char).length) *
        (10 : ℚ) ^ digitsToNat ['2', '0', '0']) := rfl
  have d1 : digitsToNat (['1'] ++ []) = 1 := by decide
  have d2 : digitsToNat ['2', '0', '0'] = 200 := by decide
  rw [h1, d1, d2]
  norm_num

/-- Helper: `10 ^ 200` lies outside the verifier sanity range. -/
theorem out_of_range_1e200 :
    ¬(-(10 : ℚ) ^ 100 < (10 : ℚ) ^ 200 ∧ (10 : ℚ) ^ 200 < (10 : ℚ) ^ 100) := by
  intro hcon
  have h2 := hcon.2
  norm_num at h2

/-- Helper: the calculator sanity check rejects a final answer that parses
to a number outside `(-1e100, 1e100)`. -/
theorem sanity_check_out_of_range (sd : SolutionData) (fa : String) (q : ℚ)
    (hfa : sd.final_answer = some fa) (hq : pyParseFloat fa = some q)
    (hout : ¬(-(10 : ℚ) ^ 100 < q ∧ q < (10 : ℚ) ^ 100)) :
    VerifierAgent.sanity_check_calculator sd = false := by
  have hb : (decide (-(10 : ℚ) ^ 100 < q) && decide (q < (10 : ℚ) ^ 100)) = false := by
    by_cases h1 : -(10 : ℚ) ^ 100 < q
    · by_cases h2 : q < (10 : ℚ) ^ 100
      · exact absurd ⟨h1, h2⟩ hout
      · simp [h2]
    · simp [h1]
  by_cases hfae : fa = ""
  · simp [VerifierAgent.sanity_check_calculator, hfa, hfae]
  · simp [VerifierAgent.sanity_check_calculator, hfa, hfae, hq, hb]

/-- C6 (amended): for a calculator-provenance attempt whose final answer
parses to a number outside `(-1e100, 1e100)`, the sanity check fails, so
`verify` does not auto-approve: the verdict is whatever the critique
evaluator returns (decoded verbatim), and `is_correct = false` is
guaranteed only when that verdict cannot be decoded. -/
theorem tool_out_of_range_not_auto_verified
    (vAgent : String → String) (vDecode : String → Except String VerificationDict)
    (problem : String) (sd : SolutionData) (fa : String) (q : ℚ) (strict : Bool)
    (_ht : sd.tool_used = some "calculator")
    (hfa : sd.final_answer = some fa)
    (hq : pyParseFloat fa = some q)
    (hout : ¬(-(10 : ℚ) ^ 100 < q ∧ q < (10 : ℚ) ^ 100)) :
    VerifierAgent.sanity_check_calculator sd = false ∧
    VerifierAgent.verify vAgent vDecode problem sd strict =
      VerifierAgent.agentPath vAgent vDecode problem sd strict ∧
    (∀ v, vDecode (vAgent (VerifierAgent.promptOf strict problem sd)) = Except.ok v →
      VerifierAgent.verify vAgent vDecode problem sd strict = v) ∧
    (∀ e, vDecode (vAgent (VerifierAgent.promptOf strict problem sd)) = Except.error e →
      (VerifierAgent.verify vAgent vDecode problem sd strict).is_correct = false) := by
  have hs := sanity_check_out_of_range sd fa q hfa hq hout
  refine ⟨hs, ?_, ?_, ?_⟩
  · simp [VerifierAgent.verify, hs]
  · intro v hv
    simp [VerifierAgent.verify, VerifierAgent.agentPath, hs, hv]
  · intro e he
    simp [VerifierAgent.verify, VerifierAgent.agentPath, hs, he]

/-- Closed witness for `tool_out_of_range_not_auto_verified`: with a
decoder that raises, the verdict for the out-of-range tool answer is
`is_correct = false`. -/
theorem tool_out_of_range_not_auto_verified_witness :
    VerifierAgent.sanity_check_calculator sdC6 = false ∧
    (VerifierAgent.verify vAgentC6 vDecodeErrC6 "compute 10^200" sdC6 false).is_correct =
      false := by
  have h := tool_out_of_range_not_auto_verified vAgentC6 vDecodeErrC6 "compute 10^200"
    sdC6 "1e200" ((10 : ℚ) ^ 200) false rfl rfl pyParseFloat_1e200 out_of_range_1e200
  exact ⟨h.1, h.2.2.2 "Expecting value" rfl⟩

/-- Counterexample for C6 as stated: a calculator-provenance attempt with
final answer `"1e200"` (numeric, outside the range) for which the critique
evaluator decodes a verdict with `is_correct = true`; `verify` returns it,
so the verification verdict does not have `is_correct = false`. -/
theorem tool_out_of_range_cex :
    sdC6.tool_used = some "calculator" ∧
    pyParseFloat "1e200" = some ((10 : ℚ) ^ 200) ∧
    ¬(-(10 : ℚ) ^ 100 < (10 : ℚ) ^ 200 ∧ (10 : ℚ) ^ 200 < (10 : ℚ) ^ 100) ∧
    (VerifierAgent.verify vAgentC6 vDecodeOkC6 "compute 10^200" sdC6 false).is_correct =
      true := by
  refine ⟨rfl, pyParseFloat_1e200, out_of_range_1e200, ?_⟩
  have hs := sanity_check_out_of_range sdC6 "1e200" ((10 : ℚ) ^ 200) rfl
    pyParseFloat_1e200 out_of_range_1e200
  simp [VerifierAgent.verify, VerifierAgent.agentPath, hs, vDecodeOkC6]

/-- C8 (amended): the verdict invariant `is_safe = false →
recommended_action ≠ "EXECUTE"` holds unconditionally on the parse-failure
path, but on the decoded-JSON path `check` returns the decoded evaluator
verdict verbatim, so the invariant holds exactly when the decoded verdict
satisfies it. -/
theorem guardrail_invariant_conditional (gAgent : String → String)
    (gDecode : String → Except String GuardrailDict) (problem plan : String)
    (h : ∀ d, gDecode (gAgent (GuardrailAgent.promptOf problem plan)) = Except.ok d →
      d.is_safe = some false → d.recommended_action ≠ some "EXECUTE") :
    (GuardrailAgent.check gAgent gDecode problem plan).is_safe = some false →
    (GuardrailAgent.check gAgent gDecode problem plan).recommended_action ≠
      some "EXECUTE" := by
  intro hsafe
  cases hd : gDecode (gAgent (GuardrailAgent.promptOf problem plan)) with
  | ok d =>
    have hc : GuardrailAgent.check gAgent gDecode problem plan = d := by
      simp [GuardrailAgent.check, hd]
    rw [hc] at hsafe ⊢
    exact h d hd hsafe
  | error e =>
    have hc : (GuardrailAgent.check gAgent gDecode problem plan).recommended_action =
        some "TRIGGER_HITL" := by
      simp [GuardrailAgent.check, hd]
    rw [hc]
    simp

/-- Closed witness for `guardrail_invariant_conditional` on the fail-closed
path: a decoder that raises yields a verdict whose action is not
`EXECUTE`. -/
theorem guardrail_invariant_conditional_witness :
    (GuardrailAgent.check gAgent0 gDecodeFail "p2" "plan2").is_safe = some false ∧
    (GuardrailAgent.check gAgent0 gDecodeFail "p2" "plan2").recommended_action ≠
      some "EXECUTE" :=
  ⟨rfl, guardrail_invariant_conditional gAgent0 gDecodeFail "p2" "plan2"
    (fun _ hd => nomatch hd) rfl⟩

/-- Counterexample for C8 as stated: on the evaluator response
`{"is_safe": false, "recommended_action": "EXECUTE"}` (decoded exactly as
`json.loads` does), `check` returns a verdict with `is_safe = false` and
`recommended_action = "EXECUTE"`, violating the invariant. -/
theorem guardrail_execute_leak_cex :
    (GuardrailAgent.check gAgentC8 gDecodeC8 "p" "1. set x = 7+y").is_safe = some false ∧
    (GuardrailAgent.check gAgentC8 gDecodeC8 "p" "1. set x = 7+y").recommended_action =
      some "EXECUTE" := by
  constructor
  · decide
  · decide

end AIMath
